import Mathlib

/-!
Shallow embedding of the darmstadt repository's core modules
(`darmstadt/jump_host.py` and `darmstadt/parallel.py`) and proofs of the
spec's claims about them.

Python exceptions are modelled as a tree of (class name, message, cause):
`raise C from e` sets the cause.  Fallible Python calls are modelled as
`Except PyExn`.  Stateful methods on `JumpHost` (which mutate the
instance's cache fields) are modelled as functions returning the updated
instance together with the result.
-/

namespace Darmstadt

/-- A Python exception value: its class name, its message, and its
`__cause__` (set by `raise ... from e`). -/
inductive PyExn where
  | mk (ty : String) (msg : String) (cause : Option PyExn)
deriving Repr

/-- Class name of the exception. -/
def PyExn.ty : PyExn → String
  | .mk t _ _ => t

/-- Message of the exception. -/
def PyExn.msg : PyExn → String
  | .mk _ m _ => m

/-- Cause of the exception (`__cause__`). -/
def PyExn.cause : PyExn → Option PyExn
  | .mk _ _ c => c

/-!
## Selector / failover engine: `JumpHost.try_function_on_any`

The loop in `jump_host.py` lines 86-112: iterate over the hosts, on any
exception record it as `last_exception` and continue to the next host; on
success break out and return `(host, result)`.  If the loop exhausts the
list (`for`/`else`), re-raise `last_exception` when one was recorded,
otherwise (only possible when the list was empty) raise the plain
`Exception("No hosts provided")`.  The final `if successful_host` guard
always passes on the success path because `JumpHost` instances are truthy
(the class defines neither `__bool__` nor `__len__`).

The host type is left as a parameter `H`: the engine only passes hosts to
`func` and to the log lines, never inspecting them.  We track, alongside
the result, the list of hosts on which `func` was actually invoked, in
invocation order.
-/

/-- One pass of the failover loop, carrying `last_exception`
(`none` before any failure was recorded).  Returns the list of hosts the
work was invoked on, paired with the loop's outcome. -/
def tryAux {H A : Type} (work : H → Except PyExn A) :
    List H → Option PyExn → List H × Except PyExn (H × A)
  | [], none => ([], Except.error (PyExn.mk "Exception" "No hosts provided" none))
  | [], some e => ([], Except.error e)
  | h :: t, _last =>
    match work h with
    | Except.ok a => ([h], Except.ok (h, a))
    | Except.error e =>
      let r := tryAux work t (some e)
      (h :: r.1, r.2)

/-- `JumpHost.try_function_on_any(func, *jump_hosts)`: outcome of the
failover loop started with no recorded exception. -/
def try_function_on_any {H A : Type} (work : H → Except PyExn A) (hosts : List H) :
    Except PyExn (H × A) :=
  (tryAux work hosts none).2

/-- The hosts on which `try_function_on_any` invokes the work, in order. -/
def invoked_hosts {H A : Type} (work : H → Except PyExn A) (hosts : List H) : List H :=
  (tryAux work hosts none).1

theorem tryAux_first_success {H A : Type} (work : H → Except PyExn A)
    (l₂ : List H) (h : H) (a : A) (hsucc : work h = Except.ok a) :
    ∀ (l₁ : List H), (∀ x ∈ l₁, ∃ e, work x = Except.error e) →
      ∀ last, tryAux work (l₁ ++ h :: l₂) last = (l₁ ++ [h], Except.ok (h, a))
  | [], _, last => by simp [tryAux, hsucc]
  | x :: t, hfail, last => by
    obtain ⟨e, he⟩ := hfail x (List.mem_cons_self x t)
    have ih := tryAux_first_success work l₂ h a hsucc t
      (fun y hy => hfail y (List.mem_cons_of_mem x hy)) (some e)
    simp [tryAux, he, ih]

/-- Claim C1: for every candidate list and unit of work, `try_function_on_any`
invokes the work strictly left to right, stops at the first succeeding
candidate, returns that `(candidate, result)` pair, and never invokes the
work on any candidate after the first success: on a list split as
`l₁ ++ h :: l₂` with every member of `l₁` failing and `h` succeeding, the
result is `(h, a)` and the invoked hosts are exactly `l₁ ++ [h]`. -/
theorem try_function_on_any_first_success {H A : Type}
    (work : H → Except PyExn A) (l₁ l₂ : List H) (h : H) (a : A)
    (hfail : ∀ x ∈ l₁, ∃ e, work x = Except.error e)
    (hsucc : work h = Except.ok a) :
    try_function_on_any work (l₁ ++ h :: l₂) = Except.ok (h, a) ∧
    invoked_hosts work (l₁ ++ h :: l₂) = l₁ ++ [h] := by
  have key := tryAux_first_success work l₂ h a hsucc l₁ hfail none
  constructor
  · unfold try_function_on_any
    rw [key]
  · unfold invoked_hosts
    rw [key]

/-- Work used in concrete checks of the failover loop: succeeds only on
host `2`, fails with a distinct error on every other host. -/
def demoWork (n : Nat) : Except PyExn Nat :=
  if n = 2 then Except.ok 10
  else Except.error (PyExn.mk "ConnectionError" (toString n) none)

/-- Witness for C1 at a concrete input: candidates `[1, 2, 3]`, work
succeeding exactly on `2`: the pair `(2, 10)` is returned and the work is
invoked on `[1, 2]` only. -/
theorem try_function_on_any_first_success_witness :
    try_function_on_any demoWork ([1] ++ 2 :: [3]) = Except.ok (2, 10) ∧
    invoked_hosts demoWork ([1] ++ 2 :: [3]) = [1] ++ [2] :=
  try_function_on_any_first_success demoWork [1] [3] 2 10
    (by
      intro x hx
      simp only [List.mem_singleton] at hx
      exact ⟨PyExn.mk "ConnectionError" (toString x) none, by simp [demoWork, hx]⟩)
    (by simp [demoWork])

theorem tryAux_cons_error {H A : Type} (work : H → Except PyExn A)
    (y : H) (t : List H) (last : Option PyExn) (e0 : PyExn)
    (he0 : work y = Except.error e0) :
    tryAux work (y :: t) last =
      (y :: (tryAux work t (some e0)).1, (tryAux work t (some e0)).2) := by
  simp [tryAux, he0]

theorem tryAux_all_fail {H A : Type} (work : H → Except PyExn A) :
    ∀ (l : List H), (∀ x ∈ l, ∃ e2, work x = Except.error e2) →
      ∀ x, l.getLast? = some x → ∀ e, work x = Except.error e →
      ∀ last, (tryAux work l last).2 = Except.error e
  | [], _, x, hx => by simp at hx
  | [y], hall, x, hx => by
    intro e he last
    simp only [List.getLast?_singleton, Option.some.injEq] at hx
    subst hx
    simp [tryAux, he]
  | y :: z :: t, hall, x, hx => by
    intro e he last
    obtain ⟨e0, he0⟩ := hall y (List.mem_cons_self y (z :: t))
    have hx2 : (z :: t).getLast? = some x := by
      rwa [List.getLast?_cons_cons] at hx
    have ih := tryAux_all_fail work (z :: t)
      (fun w hw => hall w (List.mem_cons_of_mem y hw)) x hx2 e he (some e0)
    rw [tryAux_cons_error work y (z :: t) last e0 he0]
    exact ih

/-- Claim C2: for every non-empty candidate list on which the work fails on
every candidate, `try_function_on_any` raises exactly the exception raised
by the last candidate, verbatim — the error returned is the very `PyExn`
value the last candidate produced, not a wrapper around it. -/
theorem try_function_on_any_all_fail {H A : Type}
    (work : H → Except PyExn A) (l : List H) (e : PyExn) (hne : l ≠ [])
    (hall : ∀ x ∈ l, ∃ e2, work x = Except.error e2)
    (hlast : work (l.getLast hne) = Except.error e) :
    try_function_on_any work l = Except.error e := by
  unfold try_function_on_any
  exact tryAux_all_fail work l hall (l.getLast hne)
    (List.getLast?_eq_getLast l hne) e hlast none

/-- Work used in concrete checks of the all-fail path: every host fails;
host `n` fails with class `"E"` and message `toString n`. -/
def allFailWork (n : Nat) : Except PyExn Nat :=
  Except.error (PyExn.mk "E" (toString n) none)

/-- Witness for C2 at a concrete input: on `[1, 2]`, both failing, the
raised error is the one from host `2`, the last in the list. -/
theorem try_function_on_any_all_fail_witness :
    try_function_on_any allFailWork [1, 2] =
      Except.error (PyExn.mk "E" (toString 2) none) :=
  try_function_on_any_all_fail allFailWork [1, 2]
    (PyExn.mk "E" (toString 2) none) (by simp)
    (fun x _ => ⟨PyExn.mk "E" (toString x) none, rfl⟩)
    (by simp [allFailWork, List.getLast])

/-- Work every candidate fails on, raising the very same plain exception
the empty-list path of `try_function_on_any` raises. -/
def noHostsLikeWork (_n : Nat) : Except PyExn Nat :=
  Except.error (PyExn.mk "Exception" "No hosts provided" none)

/-- Counterexample for C3: on an empty candidate list the engine raises
the plain class `Exception` (message `"No hosts provided"`), not a
distinct `NoHostsAvailable` kind, and a one-candidate all-failing run
whose candidate fails with that same plain exception raises the
identical value — so the empty-list failure is not distinguishable from
the failures raised when candidates exist but all fail. -/
theorem try_function_on_any_empty_counterexample :
    try_function_on_any noHostsLikeWork ([] : List Nat) =
      Except.error (PyExn.mk "Exception" "No hosts provided" none) ∧
    (PyExn.mk "Exception" "No hosts provided" none).ty = "Exception" ∧
    try_function_on_any noHostsLikeWork [0] =
      try_function_on_any noHostsLikeWork ([] : List Nat) :=
  ⟨rfl, rfl, rfl⟩

/-- Claim C3 (amended): when called with an empty candidate list,
`try_function_on_any` raises a plain `Exception` whose message is
`"No hosts provided"`; its class is the generic `Exception`, not a
distinct `NoHostsAvailable` kind, so it is distinguishable from the
all-fail raises only when no candidate's own failure is that same plain
exception. -/
theorem try_function_on_any_empty {H A : Type} (work : H → Except PyExn A) :
    try_function_on_any work ([] : List H) =
      Except.error (PyExn.mk "Exception" "No hosts provided" none) ∧
    (PyExn.mk "Exception" "No hosts provided" none).ty = "Exception" :=
  ⟨rfl, rfl⟩

/-!
## The `JumpHost` class (`jump_host.py` lines 20-167)

Connections and docker clients are opaque handles, modelled by type
parameters `C` and `D`.  The injectable factories `connection_func` and
`docker_client_func` are fallible functions from the hostname.  The
`open()` step of a freshly built connection is modelled by a fallible
function `openO` passed to `connect`.  Python object identity is modelled
by an `oid` field: each object allocation uses a fresh `oid`.
-/

/-- The `JumpHost` instance state: hostname, the two injectable
factories, and the two cache fields initialised to `None`. -/
structure JumpHost (C D : Type) where
  oid : Nat
  host : String
  connection_func : String → Except PyExn C
  docker_client_func : String → Except PyExn D
  cached_connection : Option C
  cached_docker_client : Option D

/-- The constructor `JumpHost.__init__`: stores the hostname and the
factories (`fc`, `dc` are the defaults `fabric.Connection` and
`_remote_docker_connection` unless overridden) and clears both caches;
`oid` is the identity of the freshly allocated object. -/
def JumpHost.init {C D : Type} (fc : String → Except PyExn C)
    (dc : String → Except PyExn D) (oid : Nat) (host : String) : JumpHost C D :=
  ⟨oid, host, fc, dc, none, none⟩

/-- The body of the `try` block in `connect`:
`connection = self.connection_func(self.host); connection.open()`,
returning the connection when both steps succeed. -/
def connAttempt {C D : Type} (openO : C → Except PyExn Unit)
    (jh : JumpHost C D) : Except PyExn C :=
  match jh.connection_func jh.host with
  | Except.error e => Except.error e
  | Except.ok c =>
    match openO c with
    | Except.error e => Except.error e
    | Except.ok _ => Except.ok c

/-- Exception classes caught by the `except` clauses of `connect`:
`socket.gaierror`, `socket.timeout`, `paramiko.AuthenticationException`. -/
def connClassified (t : String) : Bool :=
  t == "socket.gaierror" || t == "socket.timeout" ||
    t == "paramiko.AuthenticationException"

/-- Exception classes caught by the `except` clauses of `docker_client`:
`socket.gaierror`, `TimeoutError`, `paramiko.AuthenticationException`. -/
def dockerClassified (t : String) : Bool :=
  t == "socket.gaierror" || t == "TimeoutError" ||
    t == "paramiko.AuthenticationException"

/-- `JumpHost.connect` (lines 114-140): return the cached connection if
present; otherwise run the factory and the `open()` step.  Each of the
three handled exception classes is re-raised as
`ConnectionError from e`; any other exception propagates unchanged.  On
success the connection is cached.  Returns the updated instance paired
with the outcome. -/
def connect {C D : Type} (openO : C → Except PyExn Unit) (jh : JumpHost C D) :
    JumpHost C D × Except PyExn C :=
  match jh.cached_connection with
  | some c => (jh, Except.ok c)
  | none =>
    match connAttempt openO jh with
    | Except.error e =>
      if connClassified e.ty then
        (jh, Except.error (PyExn.mk "ConnectionError" "" (some e)))
      else (jh, Except.error e)
    | Except.ok c => ({ jh with cached_connection := some c }, Except.ok c)

/-- `JumpHost.docker_client` (lines 142-167): return the cached client if
present; otherwise run `docker_client_func`, converting the three handled
exception classes to `ConnectionError from e` and caching on success. -/
def docker_client {C D : Type} (jh : JumpHost C D) :
    JumpHost C D × Except PyExn D :=
  match jh.cached_docker_client with
  | some d => (jh, Except.ok d)
  | none =>
    match jh.docker_client_func jh.host with
    | Except.error e =>
      if dockerClassified e.ty then
        (jh, Except.error (PyExn.mk "ConnectionError" "" (some e)))
      else (jh, Except.error e)
    | Except.ok d => ({ jh with cached_docker_client := some d }, Except.ok d)

/-!
## `JumpHost.choose_from` (lines 41-65)
-/

/-- The `override` argument: either a Python `int` or a `str` (the
`None` case is `Option.none` at the call site). -/
inductive Override where
  | int (n : Int)
  | str (s : String)

/-- Python `str.isnumeric` restricted to ASCII text: non-empty and all
characters digits. -/
def pyIsNumeric (s : String) : Bool :=
  s.length != 0 && s.toList.all Char.isDigit

/-- Python `int(s)` on a digit string. -/
def pyToInt (s : String) : Int :=
  ((s.toNat?.getD 0 : Nat) : Int)

/-- Python sequence index adjustment: a negative index counts from the
end of the sequence. -/
def pyIndexAdjust (len : Nat) (i : Int) : Int :=
  if i < 0 then i + len else i

/-- Python sequence subscription `l[i]`: negative indices wrap around
once; anything still out of bounds raises `IndexError`. -/
def pyGet {α : Type} (l : List α) (i : Int) : Except PyExn α :=
  if h : 0 ≤ pyIndexAdjust l.length i ∧ (pyIndexAdjust l.length i).toNat < l.length then
    Except.ok (l.get ⟨(pyIndexAdjust l.length i).toNat, h.2⟩)
  else Except.error (PyExn.mk "IndexError" "tuple index out of range" none)

/-- `JumpHost.choose_from(*default_hosts, override=None)`: an integer or
numeric-string override selects `default_hosts[int(override) - 1]`; any
other non-`None` override builds `JumpHost(override)` with the default
factories (`fresh` is the identity of that new allocation); with no
override the list is shuffled (`shuffle` stands for the permutation
`random.shuffle` picks) and the winning host of
`try_function_on_any(lambda jh: jh.connect(), *shuffled)` is returned. -/
def choose_from {C D : Type} (openO : C → Except PyExn Unit)
    (shuffle : List (JumpHost C D) → List (JumpHost C D))
    (fc : String → Except PyExn C) (dc : String → Except PyExn D)
    (fresh : Nat) (hosts : List (JumpHost C D)) (override : Option Override) :
    Except PyExn (JumpHost C D) :=
  match override with
  | some (Override.int n) => pyGet hosts (n - 1)
  | some (Override.str s) =>
    if pyIsNumeric s then pyGet hosts (pyToInt s - 1)
    else Except.ok (JumpHost.init fc dc fresh s)
  | none =>
    match try_function_on_any (fun jh => (connect openO jh).2) (shuffle hosts) with
    | Except.error e => Except.error e
    | Except.ok (h, _) => Except.ok h

theorem pyGet_in_range {α : Type} (l : List α) (i : Int)
    (h0 : 0 ≤ i) (hlt : i < (l.length : Int)) :
    ∃ x, l.get? i.toNat = some x ∧ pyGet l i = Except.ok x := by
  have hadj : pyIndexAdjust l.length i = i := by
    unfold pyIndexAdjust
    rw [if_neg (by omega)]
  have hnat : i.toNat < l.length := by omega
  refine ⟨l.get ⟨i.toNat, hnat⟩, List.get?_eq_get hnat, ?_⟩
  unfold pyGet
  rw [dif_pos]
  · simp [hadj]
  · rw [hadj]
    exact ⟨h0, hnat⟩

theorem pyGet_wrap {α : Type} (l : List α) (i : Int)
    (hneg : i < 0) (hge : 0 ≤ i + (l.length : Int)) :
    ∃ x, l.get? (i + (l.length : Int)).toNat = some x ∧ pyGet l i = Except.ok x := by
  have hadj : pyIndexAdjust l.length i = i + l.length := by
    unfold pyIndexAdjust
    rw [if_pos hneg]
  have hnat : (i + (l.length : Int)).toNat < l.length := by omega
  refine ⟨l.get ⟨(i + (l.length : Int)).toNat, hnat⟩, List.get?_eq_get hnat, ?_⟩
  unfold pyGet
  rw [dif_pos]
  · simp [hadj]
  · rw [hadj]
    exact ⟨hge, hnat⟩

theorem pyGet_out_of_range {α : Type} (l : List α) (i : Int)
    (h : (l.length : Int) ≤ i ∨ i + (l.length : Int) < 0) :
    pyGet l i = Except.error (PyExn.mk "IndexError" "tuple index out of range" none) := by
  unfold pyGet
  rw [dif_neg]
  intro hcon
  rcases hcon with ⟨h0, hlt⟩
  unfold pyIndexAdjust at h0 hlt
  rcases h with hbig | hsmall
  · have hnn : ¬ i < 0 := by omega
    rw [if_neg hnn] at h0 hlt
    omega
  · have hn : i < 0 := by omega
    rw [if_pos hn] at h0 hlt
    omega

/-- A connection `open()` step that always succeeds, for concrete hosts. -/
def okOpen (_c : Unit) : Except PyExn Unit := Except.ok ()

/-- A factory that always succeeds, for concrete hosts. -/
def okFactory (_s : String) : Except PyExn Unit := Except.ok ()

/-- Concrete host used in counterexamples and witnesses. -/
def hostA : JumpHost Unit Unit := ⟨1, "a", okFactory, okFactory, none, none⟩

/-- Concrete host used in counterexamples and witnesses. -/
def hostB : JumpHost Unit Unit := ⟨2, "b", okFactory, okFactory, none, none⟩

/-- Counterexample for C4: with candidates `[hostA, hostB]` the override
index `0` is outside `1..2`, yet `choose_from` does not fail with an
index-out-of-bounds kind — Python's negative indexing makes
`default_hosts[0 - 1]` the *last* candidate, so `hostB` is returned. -/
theorem choose_from_index_zero_counterexample :
    choose_from okOpen id okFactory okFactory 99 [hostA, hostB]
        (some (Override.int 0)) = Except.ok hostB ∧
    choose_from okOpen id okFactory okFactory 99 [hostA, hostB]
        (some (Override.int 0)) ≠
      Except.error (PyExn.mk "IndexError" "tuple index out of range" none) := by
  have h1 : choose_from okOpen id okFactory okFactory 99 [hostA, hostB]
      (some (Override.int 0)) = Except.ok hostB := rfl
  refine ⟨h1, ?_⟩
  rw [h1]
  intro hcontra
  exact Except.noConfusion hcontra

/-- Claim C4 (amended): `choose_from` with an integer override `n`, or the
digit-string override spelling `n`, returns `default_hosts[n - 1]` under
Python sequence indexing and never invokes `connect`: for `n` in
`1..len` this is the 1-based pick; for `n` in `(1-len)..0` the negative
index wraps and yields `default_hosts[len + n - 1]` without error (in
particular `n = 0` yields the last candidate); only `n > len` or
`n < 1 - len` fails with an `IndexError`; a digit-string override behaves
identically to the equal integer override; and the outcome is
independent of the connection machinery (`openO`) and of the shuffle. -/
theorem choose_from_index_override {C D : Type} (openO : C → Except PyExn Unit)
    (shuffle : List (JumpHost C D) → List (JumpHost C D))
    (fc : String → Except PyExn C) (dc : String → Except PyExn D)
    (fresh : Nat) (hosts : List (JumpHost C D)) :
    (∀ n : Int, 1 ≤ n → n ≤ (hosts.length : Int) →
      ∃ jh, hosts.get? (n - 1).toNat = some jh ∧
        choose_from openO shuffle fc dc fresh hosts (some (Override.int n)) =
          Except.ok jh) ∧
    (∀ n : Int, 1 - (hosts.length : Int) ≤ n → n ≤ 0 →
      ∃ jh, hosts.get? (n - 1 + (hosts.length : Int)).toNat = some jh ∧
        choose_from openO shuffle fc dc fresh hosts (some (Override.int n)) =
          Except.ok jh) ∧
    (∀ n : Int, ((hosts.length : Int) < n ∨ n < 1 - (hosts.length : Int)) →
      choose_from openO shuffle fc dc fresh hosts (some (Override.int n)) =
        Except.error (PyExn.mk "IndexError" "tuple index out of range" none)) ∧
    (∀ s : String, pyIsNumeric s = true →
      choose_from openO shuffle fc dc fresh hosts (some (Override.str s)) =
        choose_from openO shuffle fc dc fresh hosts
          (some (Override.int (pyToInt s)))) ∧
    (∀ (openO2 : C → Except PyExn Unit)
        (shuffle2 : List (JumpHost C D) → List (JumpHost C D)) (ov : Override),
      choose_from openO shuffle fc dc fresh hosts (some ov) =
        choose_from openO2 shuffle2 fc dc fresh hosts (some ov)) := by
  refine ⟨?_, ?_, ?_, ?_, ?_⟩
  · intro n h1 h2
    obtain ⟨jh, hget, hok⟩ := pyGet_in_range hosts (n - 1) (by omega) (by omega)
    exact ⟨jh, hget, hok⟩
  · intro n h1 h2
    obtain ⟨jh, hget, hok⟩ := pyGet_wrap hosts (n - 1) (by omega) (by omega)
    exact ⟨jh, hget, hok⟩
  · intro n hout
    exact pyGet_out_of_range hosts (n - 1) (by omega)
  · intro s hnum
    simp [choose_from, hnum]
  · intro openO2 shuffle2 ov
    cases ov with
    | int n => rfl
    | str s => rfl

/-- Witness for C4 (amended) at concrete inputs: with candidates
`[hostA, hostB]`, override `1` picks `hostA` (1-based), override `0`
wraps to `hostB`, override `3` raises `IndexError`, and the digit string
`"2"` behaves as the integer `2`. -/
theorem choose_from_index_override_witness :
    (∃ jh, [hostA, hostB].get? ((1 : Int) - 1).toNat = some jh ∧
      choose_from okOpen id okFactory okFactory 99 [hostA, hostB]
        (some (Override.int 1)) = Except.ok jh) ∧
    (∃ jh, [hostA, hostB].get? ((0 : Int) - 1 + 2).toNat = some jh ∧
      choose_from okOpen id okFactory okFactory 99 [hostA, hostB]
        (some (Override.int 0)) = Except.ok jh) ∧
    choose_from okOpen id okFactory okFactory 99 [hostA, hostB]
        (some (Override.int 3)) =
      Except.error (PyExn.mk "IndexError" "tuple index out of range" none) ∧
    choose_from okOpen id okFactory okFactory 99 [hostA, hostB]
        (some (Override.str "2")) =
      choose_from okOpen id okFactory okFactory 99 [hostA, hostB]
        (some (Override.int (pyToInt "2"))) := by
  have h := choose_from_index_override okOpen id okFactory okFactory 99 [hostA, hostB]
  refine ⟨h.1 1 (by norm_num) (by norm_num), ?_, ?_, ?_⟩
  · have h2 := h.2.1 0 (by norm_num) (by norm_num)
    simpa using h2
  · exact h.2.2.1 3 (by norm_num)
  · exact h.2.2.2.1 "2" (by decide)

/-- Claim C9: `choose_from` with a non-empty, non-numeric string override
returns a freshly constructed `JumpHost` whose identifier is that
string, built with the standard default factories and with both caches
empty; being a fresh allocation (its identity `fresh` differs from
every existing object's) it is distinct from every supplied candidate;
and no connectivity check is performed — the outcome is independent of
the connection machinery and of the shuffle. -/
theorem choose_from_hostname_override {C D : Type} (openO : C → Except PyExn Unit)
    (shuffle : List (JumpHost C D) → List (JumpHost C D))
    (fc : String → Except PyExn C) (dc : String → Except PyExn D)
    (fresh : Nat) (hosts : List (JumpHost C D)) (s : String)
    (_hne : s ≠ "") (hnum : pyIsNumeric s = false)
    (hfresh : ∀ jh ∈ hosts, jh.oid ≠ fresh) :
    choose_from openO shuffle fc dc fresh hosts (some (Override.str s)) =
      Except.ok (JumpHost.init fc dc fresh s) ∧
    (JumpHost.init fc dc fresh s).host = s ∧
    (JumpHost.init fc dc fresh s).connection_func = fc ∧
    (JumpHost.init fc dc fresh s).docker_client_func = dc ∧
    (JumpHost.init fc dc fresh s).cached_connection = none ∧
    (JumpHost.init fc dc fresh s).cached_docker_client = none ∧
    (∀ jh ∈ hosts, JumpHost.init fc dc fresh s ≠ jh) ∧
    (∀ (openO2 : C → Except PyExn Unit)
        (shuffle2 : List (JumpHost C D) → List (JumpHost C D)),
      choose_from openO2 shuffle2 fc dc fresh hosts (some (Override.str s)) =
        choose_from openO shuffle fc dc fresh hosts (some (Override.str s))) := by
  refine ⟨?_, rfl, rfl, rfl, rfl, rfl, ?_, ?_⟩
  · simp [choose_from, hnum]
  · intro jh hjh hcontra
    have : (JumpHost.init fc dc fresh s).oid = jh.oid := by rw [hcontra]
    exact hfresh jh hjh (by simpa [JumpHost.init] using this.symm)
  · intro openO2 shuffle2
    rfl

/-- Witness for C9 at concrete inputs: override `"my-host"` over
`[hostA, hostB]` yields the fresh endpoint with identifier
`"my-host"`, distinct from both candidates. -/
theorem choose_from_hostname_override_witness :
    choose_from okOpen id okFactory okFactory 99 [hostA, hostB]
        (some (Override.str "my-host")) =
      Except.ok (JumpHost.init okFactory okFactory 99 "my-host") ∧
    (JumpHost.init okFactory okFactory 99 "my-host").host = "my-host" ∧
    (∀ jh ∈ [hostA, hostB],
      JumpHost.init okFactory okFactory 99 "my-host" ≠ jh) := by
  have h := choose_from_hostname_override okOpen id okFactory okFactory 99
    [hostA, hostB] "my-host" (by decide) (by decide)
    (by
      intro jh hjh
      rcases List.mem_pair.mp hjh with h1 | h1 <;> subst h1 <;> decide)
  exact ⟨h.1, h.2.1, h.2.2.2.2.2.2.1⟩

/-!
## Failure classification in `connect` and `docker_client` (claims C5, C6)
-/

/-- The `ZeroDivisionError` raised by the broken factory of the repo's
own `BAD_HOST_BAD_CODE` test host. -/
def zeroDivExn : PyExn := PyExn.mk "ZeroDivisionError" "division by zero" none

/-- A factory whose built connection raises `ZeroDivisionError` — the
situation of `BAD_HOST_BAD_CODE` in `tests/test_jump_host.py`. -/
def badCodeFactory (_s : String) : Except PyExn Unit := Except.error zeroDivExn

/-- A host whose factories fail with `ZeroDivisionError`, mirroring
`BAD_HOST_BAD_CODE`. -/
def badCodeHost : JumpHost Unit Unit :=
  ⟨3, "fakehost", badCodeFactory, badCodeFactory, none, none⟩

/-- Counterexample for C5: a factory failure of a class outside
the three handled ones (`ZeroDivisionError`, as in the repo's own
`BAD_HOST_BAD_CODE` test) propagates out of `connect` with its original
class, not as a `ConnectionError` — the claim's "or any other error
class" is false on the code. -/
theorem connect_unclassified_counterexample :
    (connect okOpen badCodeHost).2 = Except.error zeroDivExn ∧
    zeroDivExn.ty = "ZeroDivisionError" ∧
    (connect okOpen badCodeHost).2 ≠
      Except.error (PyExn.mk "ConnectionError" "" (some zeroDivExn)) := by
  refine ⟨rfl, rfl, ?_⟩
  intro hcontra
  have h1 : (connect okOpen badCodeHost).2 = Except.error zeroDivExn := rfl
  rw [h1] at hcontra
  simp [zeroDivExn] at hcontra

/-- Claim C5 (amended): when the factory/open step of `connect` fails with a
name-resolution, timeout, or authentication error
(`socket.gaierror`, `socket.timeout`, `paramiko.AuthenticationException`),
`connect` fails with `ConnectionError` carrying the original failure as
its cause; a failure of any other class propagates with its original
class unwrapped; in every failure case the instance is left unchanged,
so nothing is cached.  The same holds for `docker_client` with its
handled classes (`socket.gaierror`, `TimeoutError`,
`paramiko.AuthenticationException`). -/
theorem endpoint_failure_classification {C D : Type} (jh : JumpHost C D)
    (hnc : jh.cached_connection = none)
    (hnd : jh.cached_docker_client = none) :
    (∀ (openO : C → Except PyExn Unit) (e : PyExn),
      connAttempt openO jh = Except.error e →
      (connClassified e.ty = true →
        connect openO jh =
          (jh, Except.error (PyExn.mk "ConnectionError" "" (some e)))) ∧
      (connClassified e.ty = false →
        connect openO jh = (jh, Except.error e)) ∧
      (connect openO jh).1.cached_connection = none) ∧
    (∀ e : PyExn, jh.docker_client_func jh.host = Except.error e →
      (dockerClassified e.ty = true →
        docker_client jh =
          (jh, Except.error (PyExn.mk "ConnectionError" "" (some e)))) ∧
      (dockerClassified e.ty = false →
        docker_client jh = (jh, Except.error e)) ∧
      (docker_client jh).1.cached_docker_client = none) := by
  constructor
  · intro openO e hat
    have hco : connect openO jh =
        (if connClassified e.ty then
          (jh, Except.error (PyExn.mk "ConnectionError" "" (some e)))
        else (jh, Except.error e)) := by
      unfold connect
      rw [hnc, hat]
    refine ⟨?_, ?_, ?_⟩
    · intro hcl
      rw [hco, if_pos hcl]
    · intro hcl
      rw [hco, if_neg (by rw [hcl]; exact Bool.false_ne_true)]
    · rw [hco]
      by_cases hcl : connClassified e.ty = true
      · rw [if_pos hcl]
        exact hnc
      · rw [if_neg hcl]
        exact hnc
  · intro e hat
    have hco : docker_client jh =
        (if dockerClassified e.ty then
          (jh, Except.error (PyExn.mk "ConnectionError" "" (some e)))
        else (jh, Except.error e)) := by
      unfold docker_client
      rw [hnd, hat]
    refine ⟨?_, ?_, ?_⟩
    · intro hcl
      rw [hco, if_pos hcl]
    · intro hcl
      rw [hco, if_neg (by rw [hcl]; exact Bool.false_ne_true)]
    · rw [hco]
      by_cases hcl : dockerClassified e.ty = true
      · rw [if_pos hcl]
        exact hnd
      · rw [if_neg hcl]
        exact hnd

/-- The `socket.timeout` failure of the repo's `BAD_HOST_TIMEOUT`
connection factory. -/
def sockTimeoutExn : PyExn := PyExn.mk "socket.timeout" "timed out" none

/-- The `TimeoutError` failure of the repo's `BAD_HOST_TIMEOUT` docker
factory. -/
def timeoutErrExn : PyExn := PyExn.mk "TimeoutError" "timed out" none

/-- A host mirroring `BAD_HOST_TIMEOUT`: the connection factory fails
with `socket.timeout` and the docker factory with `TimeoutError`. -/
def timeoutHost : JumpHost Unit Unit :=
  ⟨4, "fakehost", fun _ => Except.error sockTimeoutExn,
    fun _ => Except.error timeoutErrExn, none, none⟩

/-- Witness for C5 (amended) at a concrete input: on `timeoutHost` both
accessors fail with `ConnectionError` caused by the original timeout
failure, and both caches stay empty; on `badCodeHost` the unclassified
`ZeroDivisionError` propagates unwrapped. -/
theorem endpoint_failure_classification_witness :
    connect okOpen timeoutHost =
      (timeoutHost,
        Except.error (PyExn.mk "ConnectionError" "" (some sockTimeoutExn))) ∧
    docker_client timeoutHost =
      (timeoutHost,
        Except.error (PyExn.mk "ConnectionError" "" (some timeoutErrExn))) ∧
    (connect okOpen timeoutHost).1.cached_connection = none ∧
    connect okOpen badCodeHost = (badCodeHost, Except.error zeroDivExn) := by
  have h := endpoint_failure_classification timeoutHost rfl rfl
  have hb := endpoint_failure_classification badCodeHost rfl rfl
  have h1 := h.1 okOpen sockTimeoutExn rfl
  have h2 := h.2 timeoutErrExn rfl
  have hb1 := hb.1 okOpen zeroDivExn rfl
  exact ⟨h1.1 rfl, h2.1 rfl, h1.2.2, hb1.2.1 rfl⟩

theorem connect_of_cached {C D : Type} (openO : C → Except PyExn Unit)
    (jh : JumpHost C D) (c : C) (h : jh.cached_connection = some c) :
    connect openO jh = (jh, Except.ok c) := by
  unfold connect
  rw [h]

theorem docker_client_of_cached {C D : Type} (jh : JumpHost C D) (d : D)
    (h : jh.cached_docker_client = some d) :
    docker_client jh = (jh, Except.ok d) := by
  unfold docker_client
  rw [h]

/-- Replace both injectable factories of a host, leaving everything else
(identity, hostname, caches) unchanged: used to state that a cached
accessor's result does not depend on the factories at all. -/
def setFuncs {C D : Type} (jh : JumpHost C D) (f : String → Except PyExn C)
    (g : String → Except PyExn D) : JumpHost C D :=
  { jh with connection_func := f, docker_client_func := g }

/-- Claim C6: once `connect` (respectively `docker_client`) has succeeded on an
endpoint, the result is cached; every subsequent call returns the cached
handle — the very same one — and does not invoke the factory again: the
second call's outcome is unchanged even when both factories are replaced
by arbitrary ones. -/
theorem endpoint_caching_idempotent {C D : Type} (jh : JumpHost C D) :
    (∀ (openO : C → Except PyExn Unit) (c : C),
      (connect openO jh).2 = Except.ok c →
      ((connect openO jh).1.cached_connection = some c ∧
       connect openO (connect openO jh).1 =
         ((connect openO jh).1, Except.ok c) ∧
       ∀ (openO2 : C → Except PyExn Unit) (f : String → Except PyExn C)
           (g : String → Except PyExn D),
         connect openO2 (setFuncs (connect openO jh).1 f g) =
           (setFuncs (connect openO jh).1 f g, Except.ok c))) ∧
    (∀ d : D, (docker_client jh).2 = Except.ok d →
      ((docker_client jh).1.cached_docker_client = some d ∧
       docker_client (docker_client jh).1 =
         ((docker_client jh).1, Except.ok d) ∧
       ∀ (f : String → Except PyExn C) (g : String → Except PyExn D),
         docker_client (setFuncs (docker_client jh).1 f g) =
           (setFuncs (docker_client jh).1 f g, Except.ok d))) := by
  constructor
  · intro openO c hc
    have hcache : (connect openO jh).1.cached_connection = some c := by
      cases hcc : jh.cached_connection with
      | some c0 =>
        have hco := connect_of_cached openO jh c0 hcc
        rw [hco] at hc ⊢
        have hcc2 : c0 = c := by simpa using hc
        subst hcc2
        simpa using hcc
      | none =>
        cases hat : connAttempt openO jh with
        | error e =>
          have hco : connect openO jh =
              (if connClassified e.ty then
                (jh, Except.error (PyExn.mk "ConnectionError" "" (some e)))
              else (jh, Except.error e)) := by
            unfold connect
            rw [hcc, hat]
          rw [hco] at hc
          by_cases hcl : connClassified e.ty = true
          · rw [if_pos hcl] at hc
            simp at hc
          · rw [if_neg hcl] at hc
            simp at hc
        | ok c0 =>
          have hco : connect openO jh =
              ({ jh with cached_connection := some c0 }, Except.ok c0) := by
            unfold connect
            rw [hcc, hat]
          rw [hco] at hc ⊢
          have hcc2 : c0 = c := by simpa using hc
          subst hcc2
          simp
    refine ⟨hcache, ?_, ?_⟩
    · exact connect_of_cached openO _ c hcache
    · intro openO2 f g
      exact connect_of_cached openO2 _ c hcache
  · intro d hd
    have hcache : (docker_client jh).1.cached_docker_client = some d := by
      cases hcc : jh.cached_docker_client with
      | some d0 =>
        have hco := docker_client_of_cached jh d0 hcc
        rw [hco] at hd ⊢
        have hcc2 : d0 = d := by simpa using hd
        subst hcc2
        simpa using hcc
      | none =>
        cases hat : jh.docker_client_func jh.host with
        | error e =>
          have hco : docker_client jh =
              (if dockerClassified e.ty then
                (jh, Except.error (PyExn.mk "ConnectionError" "" (some e)))
              else (jh, Except.error e)) := by
            unfold docker_client
            rw [hcc, hat]
          rw [hco] at hd
          by_cases hcl : dockerClassified e.ty = true
          · rw [if_pos hcl] at hd
            simp at hd
          · rw [if_neg hcl] at hd
            simp at hd
        | ok d0 =>
          have hco : docker_client jh =
              ({ jh with cached_docker_client := some d0 }, Except.ok d0) := by
            unfold docker_client
            rw [hcc, hat]
          rw [hco] at hd ⊢
          have hcc2 : d0 = d := by simpa using hd
          subst hcc2
          simp
    refine ⟨hcache, ?_, ?_⟩
    · exact docker_client_of_cached _ d hcache
    · intro f g
      exact docker_client_of_cached _ d hcache

/-- A host whose factories succeed, for the caching witness. -/
def goodHost : JumpHost Unit Unit := ⟨5, "good", okFactory, okFactory, none, none⟩

/-- Witness for C6 at a concrete input: after a first successful
`connect` and `docker_client` on `goodHost`, the handle is cached and a
second call returns the same handle from the cache. -/
theorem endpoint_caching_idempotent_witness :
    (connect okOpen goodHost).1.cached_connection = some () ∧
    connect okOpen (connect okOpen goodHost).1 =
      ((connect okOpen goodHost).1, Except.ok ()) ∧
    (docker_client goodHost).1.cached_docker_client = some () ∧
    docker_client (docker_client goodHost).1 =
      ((docker_client goodHost).1, Except.ok ()) := by
  have h := endpoint_caching_idempotent goodHost
  have h1 := h.1 okOpen () rfl
  have h2 := h.2 () rfl
  exact ⟨h1.1, h1.2.1, h2.1, h2.2.1⟩

/-!
## The fan-out dispatcher (`parallel.py`)

`run_in_parallel(operands, operator_func, return_exceptions=True)` starts
one task per operand (a thread-pool slot per input), gathers the
per-operand `(op, result)` pairs in input order, and builds a Python
`dict` from them.  A task's result is the operand's value, or — when the
work raises and `return_exceptions` is true — the captured exception
object itself.  With `return_exceptions` false the exception propagates
out of the dispatch; we model `asyncio.gather`'s propagation by the first
failing task in input order (the tie-break among simultaneous failures is
scheduler-dependent in the source).  `ThreadPoolExecutor` refuses
`max_workers = 0`, so an empty operand list raises
`ValueError("max_workers must be greater than 0")`.
-/

/-- The inner `coroutine(op, loop, executor)`: run the work on `op`; on
an exception either capture it as the result (`return_exceptions` true)
or re-raise it. -/
def coroutine {α β : Type} (operator_func : α → Except PyExn β)
    (return_exceptions : Bool) (op : α) : Except PyExn (α × Sum β PyExn) :=
  match operator_func op with
  | Except.ok r => Except.ok (op, Sum.inl r)
  | Except.error e =>
    if return_exceptions then Except.ok (op, Sum.inr e)
    else Except.error e

/-- `asyncio.gather` over the tasks: all results in task order, or the
first failure. -/
def gather {γ : Type} : List (Except PyExn γ) → Except PyExn (List γ)
  | [] => Except.ok []
  | t :: ts =>
    match t with
    | Except.error e => Except.error e
    | Except.ok v =>
      match gather ts with
      | Except.error e => Except.error e
      | Except.ok vs => Except.ok (v :: vs)

/-- Assignment `d[k] = v` on a Python dict represented as its ordered
entry list: an existing key keeps its position and gets the new value, a
new key is appended. -/
def dictInsert {α γ : Type} [DecidableEq α] (d : List (α × γ)) (k : α) (v : γ) :
    List (α × γ) :=
  if d.any (fun p => decide (p.1 = k)) then
    d.map (fun p => if p.1 = k then (k, v) else p)
  else d ++ [(k, v)]

/-- Python `dict(pairs)`: insert the pairs left to right. -/
def pyDict {α γ : Type} [DecidableEq α] (l : List (α × γ)) : List (α × γ) :=
  l.foldl (fun d p => dictInsert d p.1 p.2) []

/-- Python `d[k]` lookup on the entry-list representation: the value of
the (unique) entry carrying key `k`, if any. -/
def dictLookup {α γ : Type} [DecidableEq α] : List (α × γ) → α → Option γ
  | [], _ => none
  | p :: t, k => if p.1 = k then some p.2 else dictLookup t k

/-- `run_in_parallel(operands, operator_func, return_exceptions)`:
`dict` of the gathered `(op, result)` pairs, or the propagated failure;
an empty operand list makes the `ThreadPoolExecutor` constructor raise. -/
def run_in_parallel {α β : Type} [DecidableEq α] (operands : List α)
    (operator_func : α → Except PyExn β) (return_exceptions : Bool) :
    Except PyExn (List (α × Sum β PyExn)) :=
  if operands.length = 0 then
    Except.error (PyExn.mk "ValueError" "max_workers must be greater than 0" none)
  else
    match gather (operands.map (coroutine operator_func return_exceptions)) with
    | Except.error e => Except.error e
    | Except.ok results => Except.ok (pyDict results)

/-- The per-operand outcome in collect mode: the work's value, or the
captured exception itself. -/
def outcome {α β : Type} (f : α → Except PyExn β) (op : α) : Sum β PyExn :=
  match f op with
  | Except.ok r => Sum.inl r
  | Except.error e => Sum.inr e

theorem coroutine_collect {α β : Type} (f : α → Except PyExn β) (op : α) :
    coroutine f true op = Except.ok (op, outcome f op) := by
  unfold coroutine outcome
  cases f op <;> simp

theorem gather_map_collect {α β : Type} (f : α → Except PyExn β) :
    ∀ l : List α,
      gather (l.map (coroutine f true)) =
        Except.ok (l.map (fun op => (op, outcome f op)))
  | [] => rfl
  | op :: t => by
    have ih := gather_map_collect f t
    simp only [List.map_cons, gather, coroutine_collect, ih]

theorem dictLookup_map_self {α γ : Type} [DecidableEq α] (k : α) (v : γ) :
    ∀ d : List (α × γ), d.any (fun p => decide (p.1 = k)) = true →
      dictLookup (d.map (fun p => if p.1 = k then (k, v) else p)) k = some v
  | [], hmem => by simp at hmem
  | p :: t, hmem => by
    by_cases hp : p.1 = k
    · simp only [List.map_cons, if_pos hp, dictLookup]
      simp
    · have hmem2 : t.any (fun p => decide (p.1 = k)) = true := by
        simp only [List.any_cons, Bool.or_eq_true] at hmem
        rcases hmem with h1 | h1
        · exact absurd (of_decide_eq_true h1) hp
        · exact h1
      simp only [List.map_cons, if_neg hp, dictLookup]
      exact dictLookup_map_self k v t hmem2

theorem dictLookup_map_ne {α γ : Type} [DecidableEq α] (k k2 : α) (v : γ)
    (hne : k2 ≠ k) :
    ∀ d : List (α × γ),
      dictLookup (d.map (fun p => if p.1 = k then (k, v) else p)) k2 =
        dictLookup d k2
  | [] => rfl
  | p :: t => by
    have ih := dictLookup_map_ne k k2 v hne t
    by_cases hp : p.1 = k
    · simp only [List.map_cons, if_pos hp, dictLookup]
      rw [if_neg (fun hc => hne hc.symm),
        if_neg (fun hc => hne (hc.symm.trans hp)), ih]
    · simp only [List.map_cons, if_neg hp, dictLookup]
      rw [ih]

theorem dictLookup_append_self {α γ : Type} [DecidableEq α] (k : α) (v : γ) :
    ∀ d : List (α × γ), (∀ p ∈ d, p.1 ≠ k) →
      dictLookup (d ++ [(k, v)]) k = some v
  | [], _ => by
    simp only [List.nil_append, dictLookup]
    simp
  | p :: t, h => by
    have ih := dictLookup_append_self k v t
      (fun q hq => h q (List.mem_cons_of_mem p hq))
    simp only [List.cons_append, dictLookup, List.append_eq] at ih ⊢
    rw [if_neg (h p (List.mem_cons_self p t)), ih]

theorem dictLookup_append_ne {α γ : Type} [DecidableEq α] (k k2 : α) (v : γ)
    (hne : k2 ≠ k) :
    ∀ d : List (α × γ), dictLookup (d ++ [(k, v)]) k2 = dictLookup d k2
  | [] => by
    simp only [List.nil_append, dictLookup]
    rw [if_neg (fun hc => hne hc.symm)]
  | p :: t => by
    have ih := dictLookup_append_ne k k2 v hne t
    simp only [List.cons_append, dictLookup, List.append_eq] at ih ⊢
    rw [ih]

theorem dictLookup_dictInsert {α γ : Type} [DecidableEq α]
    (d : List (α × γ)) (k k2 : α) (v : γ) :
    dictLookup (dictInsert d k v) k2 =
      if k2 = k then some v else dictLookup d k2 := by
  unfold dictInsert
  by_cases hmem : d.any (fun p => decide (p.1 = k)) = true
  · rw [if_pos hmem]
    by_cases hk : k2 = k
    · subst hk
      rw [if_pos rfl]
      exact dictLookup_map_self k2 v d hmem
    · rw [if_neg hk]
      exact dictLookup_map_ne k k2 v hk d
  · rw [if_neg hmem]
    by_cases hk : k2 = k
    · subst hk
      rw [if_pos rfl]
      refine dictLookup_append_self k2 v d ?_
      intro p hp hc
      exact hmem (List.any_eq_true.mpr ⟨p, hp, decide_eq_true hc⟩)
    · rw [if_neg hk]
      exact dictLookup_append_ne k k2 v hk d

/-- The value of the last pair carrying key `k`, if any: the value a
Python `dict` built from the pair list associates with `k`. -/
def lastAssoc {α γ : Type} [DecidableEq α] : List (α × γ) → α → Option γ
  | [], _ => none
  | p :: t, k =>
    match lastAssoc t k with
    | some v => some v
    | none => if p.1 = k then some p.2 else none

theorem dictLookup_foldl_dictInsert {α γ : Type} [DecidableEq α] (k : α) :
    ∀ (l : List (α × γ)) (d : List (α × γ)),
      dictLookup (l.foldl (fun d2 p => dictInsert d2 p.1 p.2) d) k =
        match lastAssoc l k with
        | some v => some v
        | none => dictLookup d k
  | [], _ => rfl
  | p :: t, d => by
    have ih := dictLookup_foldl_dictInsert k t (dictInsert d p.1 p.2)
    simp only [List.foldl_cons, lastAssoc] at ih ⊢
    rw [ih, dictLookup_dictInsert d p.1 k p.2]
    cases lastAssoc t k with
    | some v => rfl
    | none =>
      by_cases hk : k = p.1
      · rw [if_pos hk, if_pos hk.symm]
      · rw [if_neg hk, if_neg (fun hcontra => hk hcontra.symm)]

theorem dictLookup_pyDict {α γ : Type} [DecidableEq α]
    (l : List (α × γ)) (k : α) (v : γ) (h : lastAssoc l k = some v) :
    dictLookup (pyDict l) k = some v := by
  unfold pyDict
  rw [dictLookup_foldl_dictInsert k l [], h]

theorem lastAssoc_map_not_mem {α γ : Type} [DecidableEq α] (g : α → γ) (k : α) :
    ∀ l : List α, k ∉ l → lastAssoc (l.map (fun x => (x, g x))) k = none
  | [], _ => rfl
  | x :: t, hk => by
    have hkt : k ∉ t := fun hc => hk (List.mem_cons_of_mem x hc)
    have hkx : x ≠ k := fun hc => hk (hc ▸ List.mem_cons_self x t)
    simp only [List.map_cons, lastAssoc, lastAssoc_map_not_mem g k t hkt]
    rw [if_neg hkx]

theorem lastAssoc_map_mem {α γ : Type} [DecidableEq α] (g : α → γ) (k : α) :
    ∀ l : List α, k ∈ l →
      lastAssoc (l.map (fun x => (x, g x))) k = some (g k)
  | [], hk => absurd hk (List.not_mem_nil k)
  | x :: t, hk => by
    by_cases hkt : k ∈ t
    · simp only [List.map_cons, lastAssoc, lastAssoc_map_mem g k t hkt]
    · have hx : x = k := by
        rcases List.mem_cons.mp hk with h1 | h1
        · exact h1.symm
        · exact absurd h1 hkt
      simp only [List.map_cons, lastAssoc, lastAssoc_map_not_mem g k t hkt]
      rw [if_pos hx, hx]

/-- Claim C7: in collect mode (`return_exceptions` true) `run_in_parallel`
returns a mapping that sends each input value to the work's return value
when the work completes normally, and to the captured failure object
itself when the work raises. -/
theorem run_in_parallel_collect_mode {α β : Type} [DecidableEq α]
    (operands : List α) (f : α → Except PyExn β) (op : α)
    (hop : op ∈ operands) :
    ∃ d, run_in_parallel operands f true = Except.ok d ∧
      dictLookup d op = some (outcome f op) ∧
      (∀ r, f op = Except.ok r → outcome f op = Sum.inl r) ∧
      (∀ e, f op = Except.error e → outcome f op = Sum.inr e) := by
  have hne : operands.length ≠ 0 := by
    intro hlen
    rw [List.length_eq_zero] at hlen
    subst hlen
    exact List.not_mem_nil op hop
  have hgather := gather_map_collect f operands
  refine ⟨pyDict (operands.map (fun op => (op, outcome f op))), ?_, ?_, ?_, ?_⟩
  · unfold run_in_parallel
    rw [if_neg hne, hgather]
  · exact dictLookup_pyDict _ op (outcome f op)
      (lastAssoc_map_mem (outcome f) op operands hop)
  · intro r hr
    unfold outcome
    rw [hr]
  · intro e he
    unfold outcome
    rw [he]

/-- The doctest's squaring work: `lambda x: x * x`, which never raises. -/
def sqWork (x : Int) : Except PyExn Int := Except.ok (x * x)

/-- The doctest's `lambda x: 2 / x`: raises `ZeroDivisionError` on `0`
(the quotient values at the doctest inputs coincide with integer
division). -/
def divWork (x : Int) : Except PyExn Int :=
  if x = 0 then Except.error zeroDivExn
  else Except.ok (2 / x)

/-- Witness for C7 at the claim's concrete input:
`run_in_parallel([1, 2, 4, 5], x → x * x)` is exactly the mapping
`1 → 1, 2 → 4, 4 → 16, 5 → 25`, and the general theorem instantiated at
input `2` recovers `2 → 4`; a raising work's captured failure appears as
the value, as in the `[1, 0, 2]` doctest. -/
theorem run_in_parallel_collect_mode_witness :
    run_in_parallel [1, 2, 4, 5] sqWork true =
      Except.ok [(1, Sum.inl 1), (2, Sum.inl 4), (4, Sum.inl 16),
        (5, Sum.inl 25)] ∧
    run_in_parallel [1, 0, 2] divWork true =
      Except.ok [(1, Sum.inl 2), (0, Sum.inr zeroDivExn), (2, Sum.inl 1)] ∧
    (2 : Int) ∈ [1, 2, 4, 5] ∧
    (∃ d, run_in_parallel [1, 2, 4, 5] sqWork true = Except.ok d ∧
      dictLookup d 2 = some (outcome sqWork 2) ∧
      (∀ r, sqWork 2 = Except.ok r → outcome sqWork 2 = Sum.inl r) ∧
      (∀ e, sqWork 2 = Except.error e → outcome sqWork 2 = Sum.inr e)) := by
  refine ⟨rfl, rfl, by decide, ?_⟩
  exact run_in_parallel_collect_mode [1, 2, 4, 5] sqWork 2 (by decide)

theorem gather_fail_fast {α β : Type} (f : α → Except PyExn β) :
    ∀ l : List α, (∃ op ∈ l, ∃ e, f op = Except.error e) →
      ∃ e, gather (l.map (coroutine f false)) = Except.error e ∧
        ∃ op ∈ l, f op = Except.error e
  | [], hfail => by
    obtain ⟨op, hop, _⟩ := hfail
    exact absurd hop (List.not_mem_nil op)
  | p :: t, hfail => by
    cases hfp : f p with
    | error e =>
      refine ⟨e, ?_, p, List.mem_cons_self p t, hfp⟩
      simp only [List.map_cons, gather, coroutine, hfp]
      rfl
    | ok r =>
      have htail : ∃ op ∈ t, ∃ e, f op = Except.error e := by
        obtain ⟨op, hop, e, he⟩ := hfail
        rcases List.mem_cons.mp hop with h1 | h1
        · subst h1
          rw [hfp] at he
          exact absurd he (by simp)
        · exact ⟨op, h1, e, he⟩
      obtain ⟨e, hg, op, hop, he⟩ := gather_fail_fast f t htail
      refine ⟨e, ?_, op, List.mem_cons_of_mem p hop, he⟩
      simp only [List.map_cons, gather, coroutine, hfp, hg]

/-- Claim C8: in fail-fast mode (`return_exceptions` false), a collection of
inputs containing at least one on which the work raises makes
`run_in_parallel` raise a failure raised by the work — one of the work's
own exceptions, not a mapping. -/
theorem run_in_parallel_fail_fast {α β : Type} [DecidableEq α]
    (operands : List α) (f : α → Except PyExn β)
    (hfail : ∃ op ∈ operands, ∃ e, f op = Except.error e) :
    ∃ e, run_in_parallel operands f false = Except.error e ∧
      ∃ op ∈ operands, f op = Except.error e := by
  have hne : operands.length ≠ 0 := by
    intro hlen
    rw [List.length_eq_zero] at hlen
    obtain ⟨op, hop, _⟩ := hfail
    subst hlen
    exact absurd hop (List.not_mem_nil op)
  obtain ⟨e, hg, op, hop, he⟩ := gather_fail_fast f operands hfail
  refine ⟨e, ?_, op, hop, he⟩
  unfold run_in_parallel
  rw [if_neg hne, hg]

/-- Witness for C8 at the claim's concrete input:
`run_in_parallel([1, 0, 2], x → 2 / x, return_exceptions=False)` raises
the division-by-zero failure, and the general theorem instantiated there
produces an exception the work itself raised. -/
theorem run_in_parallel_fail_fast_witness :
    run_in_parallel [1, 0, 2] divWork false = Except.error zeroDivExn ∧
    (∃ e, run_in_parallel [1, 0, 2] divWork false = Except.error e ∧
      ∃ op ∈ [1, 0, 2], divWork op = Except.error e) := by
  refine ⟨rfl, run_in_parallel_fail_fast [1, 0, 2] divWork ?_⟩
  exact ⟨0, by decide, zeroDivExn, rfl⟩

/-- Claim C10: `run_in_parallel` on an empty input collection raises the
`ValueError` of the worker pool's positive-worker-count requirement
(`ThreadPoolExecutor(max_workers=0)`), and in particular never returns a
mapping — not even the empty one. -/
theorem run_in_parallel_empty_input {α β : Type} [DecidableEq α]
    (f : α → Except PyExn β) (return_exceptions : Bool) :
    run_in_parallel ([] : List α) f return_exceptions =
      Except.error
        (PyExn.mk "ValueError" "max_workers must be greater than 0" none) ∧
    ∀ d, run_in_parallel ([] : List α) f return_exceptions ≠ Except.ok d := by
  constructor
  · rfl
  · intro d hcontra
    exact Except.noConfusion ((rfl :
      run_in_parallel ([] : List α) f return_exceptions =
        Except.error
          (PyExn.mk "ValueError" "max_workers must be greater than 0" none)
      ).symm.trans hcontra)

/-- Witness for C10 at a concrete input: the empty integer list with the
squaring work raises the `ValueError` and does not return the empty
mapping. -/
theorem run_in_parallel_empty_input_witness :
    run_in_parallel ([] : List Int) sqWork true =
      Except.error
        (PyExn.mk "ValueError" "max_workers must be greater than 0" none) ∧
    run_in_parallel ([] : List Int) sqWork true ≠ Except.ok [] :=
  ⟨(run_in_parallel_empty_input sqWork true).1,
    (run_in_parallel_empty_input sqWork true).2 []⟩

end Darmstadt
